import Mathlib

/-!
Verification of the inventory-aging dashboard `streamlit_app.py`.

The program classifies inventory SKUs into five aging buckets from the days
since their last invoice (`pd.cut`, lines 32-41), aggregates a bucket count
table for the bar chart (`value_counts` plus an ordered-categorical sort,
lines 44-47), and, on a bar selection, renders a detail view: the matching
rows, three headline metrics, and a conditional insight message
(lines 84-118).  The embedding below models those three stages over explicit
lists of records; monetary amounts are rationals.
-/

/-- One row of `df_inventario`, with the fields built by `generate_data`
(lines 13-27).  `Margen_Utilidad_Porcentaje` (and `Utilidad_Unitaria`) are
precomputed columns of the frame; the detail view only reads them, so they
are carried as fields here. -/
structure InventoryRecord where
  SKU : String
  Dias_Ultima_Factura : Int
  Existencia_Actual : Nat
  Costo_Unitario : ℚ
  Precio_Venta_Unitario : ℚ
  Utilidad_Unitaria : ℚ
  Margen_Utilidad_Porcentaje : ℚ
  Cliente_Mas_Reciente : String
  Fecha_Ultima_Compra : Int
deriving DecidableEq, Repr

/-- Line 33: the five category labels, in their semantic (aging) order; this
order is also the one given to `pd.Categorical(..., ordered=True)` on
line 46. -/
def labels : List String :=
  ["0-3 Meses (Activo)", "3-6 Meses (Monitoreo)", "6-12 Meses (Riesgo)",
   "12-24 Meses (Obsoleto)", "+24 Meses (Crítico)"]

/-- Lines 32-41: `pd.cut(..., bins=[0, 90, 180, 365, 730, inf], labels,
include_lowest=True, right=False)`.  With `right=False` every bin is a
left-closed right-open interval, the last one unbounded above; a value that
falls in no bin (here: a negative one) is assigned NaN, modelled as `none`. -/
def classify (d : Int) : Option String :=
  if 0 ≤ d ∧ d < 90 then some "0-3 Meses (Activo)"
  else if 90 ≤ d ∧ d < 180 then some "3-6 Meses (Monitoreo)"
  else if 180 ≤ d ∧ d < 365 then some "6-12 Meses (Riesgo)"
  else if 365 ≤ d ∧ d < 730 then some "12-24 Meses (Obsoleto)"
  else if 730 ≤ d then some "+24 Meses (Crítico)"
  else none

/-- Line 35: the derived `Categoria_Antiguedad` column of a record. -/
def Categoria_Antiguedad (r : InventoryRecord) : Option String :=
  classify r.Dias_Ultima_Factura

/-- Lower bound (inclusive) of the i-th bin of line 32. -/
def binLo (i : Fin 5) : Int :=
  match i.1 with
  | 0 => 0
  | 1 => 90
  | 2 => 180
  | 3 => 365
  | _ => 730

/-- Upper bound (exclusive) of the i-th bin of line 32; the last bin is
unbounded (`inf`). -/
def binHi (i : Fin 5) : Option Int :=
  match i.1 with
  | 0 => some 90
  | 1 => some 180
  | 2 => some 365
  | 3 => some 730
  | _ => none

/-- The i-th category label, in bin order. -/
def labelAt (i : Fin 5) : String := labels.get ⟨i.1, i.2⟩

/-- Day `d` lies in the half-open range of the i-th bin. -/
def inRange (i : Fin 5) (d : Int) : Prop :=
  binLo i ≤ d ∧ ∀ hi, binHi i = some hi → d < hi

/-- Count of the records classified under label `l`: one cell of the
`value_counts()` result of line 44 (NaN-classified rows never match a
label, so they are dropped, as `value_counts` does). -/
def Cantidad_SKUs (l : String) (R : List InventoryRecord) : Nat :=
  (R.filter (fun r => decide (Categoria_Antiguedad r = some l))).length

/-- Line 44: `value_counts()` on the categorical column.  On a categorical
dtype pandas returns one `(category, count)` row for every category of the
dtype - zero counts included - with NaN dropped, ordered by decreasing
count (mergeSort is stable, so ties keep category order, as pandas breaks
ties by category position). -/
def value_counts (R : List InventoryRecord) : List (String × Nat) :=
  (labels.map (fun l => (l, Cantidad_SKUs l R))).mergeSort
    (fun a b => decide (b.2 ≤ a.2))

/-- Lines 46-47: the rows are re-keyed as an ordered categorical over
`labels` and re-sorted by it (`sort_values`), i.e. by position in
`labels`. -/
def df_conteo (R : List InventoryRecord) : List (String × Nat) :=
  (value_counts R).mergeSort
    (fun a b => decide (List.indexOf a.1 labels ≤ List.indexOf b.1 labels))

/-- Evaluation of `classify` on the first bin. -/
theorem classify_eq0 (d : Int) (h0 : 0 ≤ d) (h : d < 90) :
    classify d = some "0-3 Meses (Activo)" := by
  unfold classify
  rw [if_pos ⟨h0, h⟩]

/-- Evaluation of `classify` on the second bin. -/
theorem classify_eq1 (d : Int) (h0 : 90 ≤ d) (h : d < 180) :
    classify d = some "3-6 Meses (Monitoreo)" := by
  unfold classify
  rw [if_neg (by omega), if_pos ⟨h0, h⟩]

/-- Evaluation of `classify` on the third bin. -/
theorem classify_eq2 (d : Int) (h0 : 180 ≤ d) (h : d < 365) :
    classify d = some "6-12 Meses (Riesgo)" := by
  unfold classify
  rw [if_neg (by omega), if_neg (by omega), if_pos ⟨h0, h⟩]

/-- Evaluation of `classify` on the fourth bin. -/
theorem classify_eq3 (d : Int) (h0 : 365 ≤ d) (h : d < 730) :
    classify d = some "12-24 Meses (Obsoleto)" := by
  unfold classify
  rw [if_neg (by omega), if_neg (by omega), if_neg (by omega), if_pos ⟨h0, h⟩]

/-- Evaluation of `classify` on the last, unbounded bin. -/
theorem classify_eq4 (d : Int) (h0 : 730 ≤ d) :
    classify d = some "+24 Meses (Crítico)" := by
  unfold classify
  rw [if_neg (by omega), if_neg (by omega), if_neg (by omega), if_neg (by omega),
    if_pos h0]

/-- A negative day count falls in no bin: `pd.cut` leaves it NaN. -/
theorem classify_neg (d : Int) (h : d < 0) : classify d = none := by
  unfold classify
  rw [if_neg (by omega), if_neg (by omega), if_neg (by omega), if_neg (by omega),
    if_neg (by omega)]

/-- Whatever `classify` returns is one of the five labels. -/
theorem classify_mem_labels (d : Int) (l : String) (h : classify d = some l) :
    l ∈ labels := by
  unfold classify at h
  split at h
  · exact Option.some.inj h ▸ (by decide)
  · split at h
    · exact Option.some.inj h ▸ (by decide)
    · split at h
      · exact Option.some.inj h ▸ (by decide)
      · split at h
        · exact Option.some.inj h ▸ (by decide)
        · split at h
          · exact Option.some.inj h ▸ (by decide)
          · exact absurd h (by simp)

/-- The five labels are pairwise distinct, so `labelAt` is injective. -/
theorem labelAt_inj : ∀ i j : Fin 5, labelAt i = labelAt j → i = j := by decide

/-- Existence half of C1: every non-negative day count hits a bin whose
range contains it. -/
theorem classify_bucket_of_nonneg (d : Int) (h : 0 ≤ d) :
    ∃ i : Fin 5, classify d = some (labelAt i) ∧ inRange i d := by
  rcases (show (0 ≤ d ∧ d < 90) ∨ (90 ≤ d ∧ d < 180) ∨ (180 ≤ d ∧ d < 365) ∨
      (365 ≤ d ∧ d < 730) ∨ 730 ≤ d by omega) with h1 | h1 | h1 | h1 | h1
  · exact ⟨0, classify_eq0 d h1.1 h1.2,
      by refine ⟨by exact h1.1, fun hi hhi => ?_⟩
         have := Option.some.inj ((show binHi 0 = some 90 from rfl).symm.trans hhi)
         omega⟩
  · exact ⟨1, classify_eq1 d h1.1 h1.2,
      by refine ⟨by exact h1.1, fun hi hhi => ?_⟩
         have := Option.some.inj ((show binHi 1 = some 180 from rfl).symm.trans hhi)
         omega⟩
  · exact ⟨2, classify_eq2 d h1.1 h1.2,
      by refine ⟨by exact h1.1, fun hi hhi => ?_⟩
         have := Option.some.inj ((show binHi 2 = some 365 from rfl).symm.trans hhi)
         omega⟩
  · exact ⟨3, classify_eq3 d h1.1 h1.2,
      by refine ⟨by exact h1.1, fun hi hhi => ?_⟩
         have := Option.some.inj ((show binHi 3 = some 730 from rfl).symm.trans hhi)
         omega⟩
  · exact ⟨4, classify_eq4 d h1,
      by refine ⟨by exact h1, fun hi hhi => ?_⟩
         rw [show binHi 4 = none from rfl] at hhi
         exact absurd hhi (by simp)⟩

/-- C1: for every non-negative integer `d`, `classify d` returns exactly one
of the 5 fixed aging categories and the returned category's half-open day
range contains `d`; at the boundaries, 89 is still `0-3 Meses (Activo)`,
90 falls to `3-6 Meses (Monitoreo)`, 729 is still `12-24 Meses (Obsoleto)`
and 730 falls to `+24 Meses (Crítico)` (the English names of the claim are
the display translations of these labels). -/
theorem classify_unique_bucket :
    (∀ d : Int, 0 ≤ d → ∃! i : Fin 5, classify d = some (labelAt i) ∧ inRange i d)
    ∧ classify 89 = some "0-3 Meses (Activo)"
    ∧ classify 90 = some "3-6 Meses (Monitoreo)"
    ∧ classify 729 = some "12-24 Meses (Obsoleto)"
    ∧ classify 730 = some "+24 Meses (Crítico)" := by
  refine ⟨fun d h => ?_, by decide, by decide, by decide, by decide⟩
  obtain ⟨i, hi, hr⟩ := classify_bucket_of_nonneg d h
  refine ⟨i, ⟨hi, hr⟩, fun j hj => ?_⟩
  apply labelAt_inj
  have := hj.1.symm.trans hi
  exact Option.some.inj this

/-- Witness for C1 at the concrete input 100. -/
theorem classify_unique_bucket_holds :
    ∃! i : Fin 5, classify 100 = some (labelAt i) ∧ inRange i 100 :=
  classify_unique_bucket.1 100 (by decide)

/-- Net effect of lines 44-47: the counted rows come out as exactly one row
per category, in label order, whatever the record distribution is.  The
`value_counts` stage emits the five rows in count order; the categorical
`sort_values` stage re-sorts them by position in `labels`, and since each
label occurs exactly once the sorted result is unique. -/
theorem df_conteo_eq (R : List InventoryRecord) :
    df_conteo R = labels.map (fun l => (l, Cantidad_SKUs l R)) := by
  have hperm : (df_conteo R).Perm
      (labels.map (fun l => (l, Cantidad_SKUs l R))) :=
    (List.mergeSort_perm _ _).trans (List.mergeSort_perm _ _)
  have hsorted : (df_conteo R).Pairwise
      (fun a b => List.indexOf a.1 labels ≤ List.indexOf b.1 labels) := by
    have h := @List.sorted_mergeSort (String × Nat)
      (fun a b => decide (List.indexOf a.1 labels ≤ List.indexOf b.1 labels))
      (fun a b c h1 h2 => by
        simp only [decide_eq_true_eq] at h1 h2 ⊢
        omega)
      (fun a b => by
        simp only [Bool.or_eq_true, decide_eq_true_eq]
        omega)
      (value_counts R)
    exact h.imp (fun hab => by simpa using hab)
  have hkey : ∀ p ∈ labels.map (fun l => (l, Cantidad_SKUs l R)),
      p.1 ∈ labels ∧ p.2 = Cantidad_SKUs p.1 R := by
    intro p hp
    obtain ⟨l, hl, rfl⟩ := List.mem_map.mp hp
    exact ⟨hl, rfl⟩
  have hstrict : (df_conteo R).Pairwise
      (fun a b : String × Nat =>
        List.indexOf a.1 labels < List.indexOf b.1 labels ∨ a = b) := by
    refine hsorted.imp_of_mem ?_
    intro a b ha hb hle
    rcases lt_or_eq_of_le hle with hlt | heq
    · exact Or.inl hlt
    · obtain ⟨ha1, ha2⟩ := hkey a (hperm.subset ha)
      obtain ⟨hb1, hb2⟩ := hkey b (hperm.subset hb)
      have h1 : a.1 = b.1 := (List.indexOf_inj ha1 hb1).mp heq
      have h2 : a.2 = b.2 := by rw [ha2, hb2, h1]
      exact Or.inr (Prod.ext h1 h2)
  have htarget : (labels.map (fun l => (l, Cantidad_SKUs l R))).Pairwise
      (fun a b : String × Nat =>
        List.indexOf a.1 labels < List.indexOf b.1 labels ∨ a = b) := by
    have hbase : labels.Pairwise
        (fun x y => List.indexOf x labels < List.indexOf y labels) := by decide
    exact List.pairwise_map.mpr (hbase.imp (fun h => Or.inl h))
  haveI : IsAntisymm (String × Nat)
      (fun a b : String × Nat =>
        List.indexOf a.1 labels < List.indexOf b.1 labels ∨ a = b) := by
    refine ⟨?_⟩
    intro a b hab hba
    rcases hab with h1 | h1
    · rcases hba with h2 | h2
      · omega
      · exact h2.symm
    · exact h1
  exact List.eq_of_perm_of_sorted hperm hstrict htarget

/-- The five per-label counts add up to the number of records whose day
count is non-negative: such a record is classified under exactly one label,
and a negative one under none. -/
theorem sum_cantidades (R : List InventoryRecord) :
    (labels.map (fun l => Cantidad_SKUs l R)).sum
      = (R.filter (fun r => decide (0 ≤ r.Dias_Ultima_Factura))).length := by
  induction R with
  | nil => rfl
  | cons r R ih =>
    simp only [labels, List.map_cons, List.map_nil, List.sum_cons, List.sum_nil,
      Cantidad_SKUs, Categoria_Antiguedad, List.filter_cons] at ih ⊢
    rcases (show r.Dias_Ultima_Factura < 0 ∨
        (0 ≤ r.Dias_Ultima_Factura ∧ r.Dias_Ultima_Factura < 90) ∨
        (90 ≤ r.Dias_Ultima_Factura ∧ r.Dias_Ultima_Factura < 180) ∨
        (180 ≤ r.Dias_Ultima_Factura ∧ r.Dias_Ultima_Factura < 365) ∨
        (365 ≤ r.Dias_Ultima_Factura ∧ r.Dias_Ultima_Factura < 730) ∨
        730 ≤ r.Dias_Ultima_Factura by omega) with h | h | h | h | h | h
    · have hno : ¬ (0 ≤ r.Dias_Ultima_Factura) := by omega
      simp only [classify_neg _ h]
      simp +decide [hno]
      omega
    · simp only [classify_eq0 _ h.1 h.2]
      simp +decide [h.1]
      omega
    · have h0 : 0 ≤ r.Dias_Ultima_Factura := by omega
      simp only [classify_eq1 _ h.1 h.2]
      simp +decide [h0]
      omega
    · have h0 : 0 ≤ r.Dias_Ultima_Factura := by omega
      simp only [classify_eq2 _ h.1 h.2]
      simp +decide [h0]
      omega
    · have h0 : 0 ≤ r.Dias_Ultima_Factura := by omega
      simp only [classify_eq3 _ h.1 h.2]
      simp +decide [h0]
      omega
    · have h0 : 0 ≤ r.Dias_Ultima_Factura := by omega
      simp only [classify_eq4 _ h]
      simp +decide [h0]
      omega

/-- A fresh SKU (10 days), the first record of the spec's worked scenario:
stock 5, cost 100, price 150. -/
def rActivo : InventoryRecord :=
  { SKU := "SKU-0001", Dias_Ultima_Factura := 10, Existencia_Actual := 5,
    Costo_Unitario := 100, Precio_Venta_Unitario := 150,
    Utilidad_Unitaria := 50, Margen_Utilidad_Porcentaje := 3333 / 100,
    Cliente_Mas_Reciente := "Cliente_A", Fecha_Ultima_Compra := 0 }

/-- A stale SKU (800 days), the second record of the spec's worked scenario:
stock 2, cost 50, price 60. -/
def rCritico : InventoryRecord :=
  { SKU := "SKU-0002", Dias_Ultima_Factura := 800, Existencia_Actual := 2,
    Costo_Unitario := 50, Precio_Venta_Unitario := 60,
    Utilidad_Unitaria := 10, Margen_Utilidad_Porcentaje := 1667 / 100,
    Cliente_Mas_Reciente := "Cliente_B", Fecha_Ultima_Compra := 0 }

/-- An invalid record: a negative day count, which `pd.cut` classifies as
NaN. -/
def rNeg : InventoryRecord :=
  { SKU := "SKU-0003", Dias_Ultima_Factura := -5, Existencia_Actual := 1,
    Costo_Unitario := 10, Precio_Venta_Unitario := 20,
    Utilidad_Unitaria := 10, Margen_Utilidad_Porcentaje := 50,
    Cliente_Mas_Reciente := "Cliente_C", Fecha_Ultima_Compra := 0 }

/-- C2: when every record has a non-negative day count, the counts of the
aggregated table add up to the number of records - each record lands in
exactly one category row. -/
theorem conteo_sum_eq_length (R : List InventoryRecord)
    (h : ∀ r ∈ R, 0 ≤ r.Dias_Ultima_Factura) :
    ((df_conteo R).map Prod.snd).sum = R.length := by
  rw [df_conteo_eq, List.map_map]
  have hs := sum_cantidades R
  have hfull : R.filter (fun r => decide (0 ≤ r.Dias_Ultima_Factura)) = R :=
    List.filter_eq_self.mpr (fun r hr => by simpa using h r hr)
  rw [hfull] at hs
  simpa [Function.comp] using hs

/-- Witness for C2 on the spec's two-record scenario. -/
theorem conteo_sum_eq_length_holds :
    ((df_conteo [rActivo, rCritico]).map Prod.snd).sum = 2 :=
  conteo_sum_eq_length [rActivo, rCritico] (by decide)

/-- C3: for every record collection, the rows of the aggregated table carry
the five labels in the fixed semantic order - never a count-descending or
alphabetic order. -/
theorem conteo_fixed_order (R : List InventoryRecord) :
    (df_conteo R).map Prod.fst = labels := by
  rw [df_conteo_eq, List.map_map]
  simp [Function.comp_def]

/-- Counterexample to C4 as stated: with the single fresh record `rActivo`,
the category `3-6 Meses (Monitoreo)` matches no record, yet the aggregate
does emit a row for it, with count 0 (pandas `value_counts` on a
categorical dtype reports every category of the dtype). -/
theorem conteo_zero_count_row_present :
    Cantidad_SKUs "3-6 Meses (Monitoreo)" [rActivo] = 0
    ∧ ("3-6 Meses (Monitoreo)", 0) ∈ df_conteo [rActivo] := by
  refine ⟨by decide, ?_⟩
  rw [df_conteo_eq]
  decide

/-- C4 as amended: a category with zero matching records is still emitted by
the aggregator, as a row with count 0. -/
theorem conteo_zero_count_rows (R : List InventoryRecord) (l : String)
    (hl : l ∈ labels) (h : Cantidad_SKUs l R = 0) :
    (l, 0) ∈ df_conteo R := by
  rw [df_conteo_eq]
  exact List.mem_map.mpr ⟨l, hl, by rw [h]⟩

/-- Witness for the amended C4: the `6-12 Meses (Riesgo)` row appears with
count 0 in the one-record aggregate. -/
theorem conteo_zero_count_rows_holds :
    ("6-12 Meses (Riesgo)", 0) ∈ df_conteo [rActivo] :=
  conteo_zero_count_rows [rActivo] "6-12 Meses (Riesgo)" (by decide) (by decide)

/-- Line 91: the rows whose categorical equals the selected label.  pandas
equality of a categorical column against a scalar never throws: a NaN cell
and a label outside the dtype's categories simply compare unequal. -/
def df_detalle (sel : String) (R : List InventoryRecord) : List InventoryRecord :=
  R.filter (fun r => decide (Categoria_Antiguedad r = some sel))

/-- Line 103: `(df_detalle['Existencia_Actual'] * df_detalle['Costo_Unitario']).sum()`. -/
def Inversion_Total (d : List InventoryRecord) : ℚ :=
  (d.map (fun r => (r.Existencia_Actual : ℚ) * r.Costo_Unitario)).sum

/-- Line 104: `df_detalle['Margen_Utilidad_Porcentaje'].mean()`. -/
def Margen_Promedio (d : List InventoryRecord) : ℚ :=
  (d.map (fun r => r.Margen_Utilidad_Porcentaje)).sum / (d.length : ℚ)

/-- Lines 106-110: the displayed table,
`sort_values('Dias_Ultima_Factura', ascending=False)`. -/
def tabla_detalle (d : List InventoryRecord) : List InventoryRecord :=
  d.mergeSort (fun a b => decide (b.Dias_Ultima_Factura ≤ a.Dias_Ultima_Factura))

/-- Python's substring test `needle in hay`, over character lists. -/
def charsContain (needle : List Char) : List Char → Bool
  | [] => needle.isPrefixOf []
  | c :: t => needle.isPrefixOf (c :: t) || charsContain needle t

/-- Python's substring test `needle in hay` on strings. -/
def strContains (hay needle : String) : Bool :=
  charsContain needle.toList hay.toList

/-- The two conditional insight messages of the detail view. -/
inductive Insight where
  /-- Line 114, `st.error`: action required, recommend liquidation or
  return to vendor. -/
  | accionComercialRequerida : Insight
  /-- Line 116, `st.success`: optimal state, recommend a reorder-point
  review. -/
  | estadoOptimo : Insight
deriving DecidableEq, Repr

/-- Lines 112-116: the insight is chosen by substring tests on the selected
label - `"Crítico" in categoria_seleccionada`, then
`"Activo" in categoria_seleccionada`, else nothing. -/
def insight_detalle (sel : String) : Option Insight :=
  if strContains sel "Crítico" then some Insight.accionComercialRequerida
  else if strContains sel "Activo" then some Insight.estadoOptimo
  else none

/-- Outcome of the detail block, lines 99-118: either the populated view
(metrics of lines 102-104, the sorted table of lines 106-110, and the
conditional insight of lines 112-116), or the `st.info` empty state of
line 118, which computes no metric at all. -/
inductive DetailResult where
  | shown (skuCount : Nat) (inversionTotal : ℚ) (margenPromedio : ℚ)
      (tabla : List InventoryRecord) (insight : Option Insight) : DetailResult
  | noData : DetailResult
deriving DecidableEq, Repr

/-- Lines 91-118: the whole detail block for a selected label. -/
def detail (sel : String) (R : List InventoryRecord) : DetailResult :=
  let d := df_detalle sel R
  if d.isEmpty then DetailResult.noData
  else DetailResult.shown d.length (Inversion_Total d) (Margen_Promedio d)
    (tabla_detalle d) (insight_detalle sel)

/-- An empty match set short-circuits to the no-data state. -/
theorem detail_eq_noData_of_empty (sel : String) (R : List InventoryRecord)
    (h : df_detalle sel R = []) : detail sel R = DetailResult.noData := by
  unfold detail
  rw [h]
  rfl

/-- C5: whenever no record matches the selected category - in particular on
the empty collection - the detail block yields the explicit no-data state
(`st.info`, line 118), which carries no metric: no mean or sum is computed
over the empty match set. -/
theorem detail_no_data :
    (∀ (sel : String) (R : List InventoryRecord), df_detalle sel R = [] →
      detail sel R = DetailResult.noData)
    ∧ ∀ sel : String, detail sel [] = DetailResult.noData :=
  ⟨detail_eq_noData_of_empty, fun sel => detail_eq_noData_of_empty sel [] rfl⟩

/-- Witness for C5: selecting `6-12 Meses (Riesgo)` over a collection with
no record in that range gives the no-data state. -/
theorem detail_no_data_holds :
    detail "6-12 Meses (Riesgo)" [rActivo] = DetailResult.noData :=
  detail_no_data.1 "6-12 Meses (Riesgo)" [rActivo] (by decide)

/-- C6: a selection label that is not one of the five fixed category labels
matches no record, so the detail block takes the no-data path - no error is
raised, the unrecognized label is a no-op. -/
theorem detail_unknown_label (sel : String) (R : List InventoryRecord)
    (h : sel ∉ labels) : detail sel R = DetailResult.noData := by
  apply detail_eq_noData_of_empty
  refine List.filter_eq_nil_iff.mpr ?_
  intro r hr
  simp only [decide_eq_true_eq]
  intro hc
  exact h (classify_mem_labels r.Dias_Ultima_Factura sel hc)

/-- Witness for C6 on the unrecognized label `Sin Categoria` over a
non-empty collection. -/
theorem detail_unknown_label_holds :
    detail "Sin Categoria" [rActivo, rCritico] = DetailResult.noData :=
  detail_unknown_label "Sin Categoria" [rActivo, rCritico] (by decide)

/-- C7: on a non-empty match set the detail block reports the number of
matching records (line 102), the total investment - the sum over matching
records of stock times unit cost (line 103) - and the average margin - the
mean of the margin column over matching records (line 104).  The currency
and two-decimal string formatting of lines 103-104 is display-side
rendering of exactly these numbers and is not modelled. -/
theorem detail_metrics (sel : String) (R : List InventoryRecord)
    (h : df_detalle sel R ≠ []) :
    detail sel R = DetailResult.shown
      (R.countP (fun r => decide (Categoria_Antiguedad r = some sel)))
      ((df_detalle sel R).map
        (fun r => (r.Existencia_Actual : ℚ) * r.Costo_Unitario)).sum
      (((df_detalle sel R).map (fun r => r.Margen_Utilidad_Porcentaje)).sum
        / ((R.countP (fun r => decide (Categoria_Antiguedad r = some sel)) : ℚ)))
      (tabla_detalle (df_detalle sel R))
      (insight_detalle sel) := by
  simp only [detail]
  rw [if_neg (by simpa [List.isEmpty_iff] using h)]
  rw [List.countP_eq_length_filter]
  rfl

/-- Witness for C7 on the spec's scenario: selecting `+24 Meses (Crítico)`
over the two-record collection matches only `rCritico`, so the metrics are
1 SKU, an investment of 2 * 50 = 100 and an average margin of 16.67. -/
theorem detail_metrics_holds :
    detail "+24 Meses (Crítico)" [rActivo, rCritico]
      = DetailResult.shown 1 100 (1667 / 100) [rCritico]
          (some Insight.accionComercialRequerida) := by
  have h := detail_metrics "+24 Meses (Crítico)" [rActivo, rCritico] (by decide)
  rw [h]
  have hd : df_detalle "+24 Meses (Crítico)" [rActivo, rCritico] = [rCritico] := by
    simp +decide [df_detalle, Categoria_Antiguedad, rActivo, rCritico, classify]
  have hcnt : List.countP
      (fun r => decide (Categoria_Antiguedad r = some "+24 Meses (Crítico)"))
      [rActivo, rCritico] = 1 := by decide
  have hins : insight_detalle "+24 Meses (Crítico)"
      = some Insight.accionComercialRequerida := by decide
  rw [hd, hcnt, hins]
  norm_num [rCritico, tabla_detalle, List.mergeSort_singleton]

/-- C8: the table of the detail view holds exactly the records whose
category equals the selected label (it is a permutation of that filter, so
nothing is added or lost), arranged in descending order of days since last
invoice - most stale first. -/
theorem detail_tabla_sorted (sel : String) (R : List InventoryRecord) :
    (tabla_detalle (df_detalle sel R)).Perm
      (R.filter (fun r => decide (Categoria_Antiguedad r = some sel)))
    ∧ (tabla_detalle (df_detalle sel R)).Pairwise
        (fun a b => b.Dias_Ultima_Factura ≤ a.Dias_Ultima_Factura) := by
  constructor
  · exact List.mergeSort_perm (df_detalle sel R) _
  · have h := @List.sorted_mergeSort InventoryRecord
      (fun a b => decide (b.Dias_Ultima_Factura ≤ a.Dias_Ultima_Factura))
      (fun a b c h1 h2 => by
        simp only [decide_eq_true_eq] at h1 h2 ⊢
        omega)
      (fun a b => by
        simp only [Bool.or_eq_true, decide_eq_true_eq]
        omega)
      (df_detalle sel R)
    exact h.imp (fun hab => by simpa using hab)

/-- C9: the insight of a populated detail view depends only on the selected
label: the critical tier (`+24 Meses (Crítico)`) triggers the `st.error`
action-required warning of line 114, the optimal tier (`0-3 Meses
(Activo)`) the `st.success` reorder-review message of line 116, and the
three intermediate categories no message; and every populated detail
result indeed carries `insight_detalle` of its label. -/
theorem insight_por_categoria :
    insight_detalle "+24 Meses (Crítico)" = some Insight.accionComercialRequerida
    ∧ insight_detalle "0-3 Meses (Activo)" = some Insight.estadoOptimo
    ∧ insight_detalle "3-6 Meses (Monitoreo)" = none
    ∧ insight_detalle "6-12 Meses (Riesgo)" = none
    ∧ insight_detalle "12-24 Meses (Obsoleto)" = none
    ∧ ∀ (sel : String) (R : List InventoryRecord), df_detalle sel R ≠ [] →
        ∃ cnt inv avg tabla, detail sel R
          = DetailResult.shown cnt inv avg tabla (insight_detalle sel) := by
  refine ⟨by decide, by decide, by decide, by decide, by decide, ?_⟩
  intro sel R h
  refine ⟨(df_detalle sel R).length, Inversion_Total (df_detalle sel R),
    Margen_Promedio (df_detalle sel R), tabla_detalle (df_detalle sel R), ?_⟩
  simp only [detail]
  rw [if_neg (by simpa [List.isEmpty_iff] using h)]

/-- Witness for C9's quantified part: the populated view for the optimal
category carries its insight. -/
theorem insight_por_categoria_holds :
    ∃ cnt inv avg tabla, detail "0-3 Meses (Activo)" [rActivo]
      = DetailResult.shown cnt inv avg tabla
          (insight_detalle "0-3 Meses (Activo)") :=
  insight_por_categoria.2.2.2.2.2 "0-3 Meses (Activo)" [rActivo] (by decide)

/-- C10: a record with a negative day count gets no category from `pd.cut`
(NaN, modelled `none`; no error is raised), so it matches no label's count
and silently disappears from the aggregate: the counts then add up to
strictly less than the number of records. -/
theorem negative_days_unclassified :
    (∀ d : Int, d < 0 → classify d = none)
    ∧ ∀ (R : List InventoryRecord) (r : InventoryRecord), r ∈ R →
        r.Dias_Ultima_Factura < 0 →
        ((df_conteo R).map Prod.snd).sum < R.length := by
  refine ⟨fun d hd => classify_neg d hd, ?_⟩
  intro R r hr hneg
  have hcomp : (labels.map (fun l => (l, Cantidad_SKUs l R))).map Prod.snd
      = labels.map (fun l => Cantidad_SKUs l R) := by
    rw [List.map_map]
    rfl
  rw [df_conteo_eq, hcomp, sum_cantidades]
  refine List.length_filter_lt_length_iff_exists.mpr ⟨r, hr, ?_⟩
  simp only [decide_eq_true_eq]
  omega

/-- Witness for C10: with the single negative-days record `rNeg`, nothing is
classified and the aggregate counts add up to 0 < 1. -/
theorem negative_days_unclassified_holds :
    classify (-5) = none ∧ ((df_conteo [rNeg]).map Prod.snd).sum < 1 :=
  ⟨negative_days_unclassified.1 (-5) (by decide),
   negative_days_unclassified.2 [rNeg] rNeg (List.mem_singleton_self rNeg)
     (by decide)⟩
